import Mathlib

/-!
Shallow embedding of the county-employment explorer (ZIP → county → NAICS
industry drill-down).  The embedded code comes from the repository's three
service modules — the census types (`CensusDataPoint` / `ProcessedEmployerData`
/ `ApiError`), the `CensusApiService` class and the `NAICSApiService` class —
plus the `getStateCountyFromLocation` helper of the `EmployerResults`
component.  HTTP is modelled by environments mapping each request the code can
issue to an outcome (network throw, non-2xx status, blank body, malformed
JSON, or a parsed JSON value); `try`/`catch` becomes case analysis on those
outcomes, and the `NAICSApiService` static `cache` (a JS `Map`) becomes an
association list threaded through the functions.  Query counting (the third
component returned by the cached fetchers) records how many HTTP requests a
call issues, so that "no further query after caching" is a provable statement.
-/

/-! ### JavaScript string and number primitives -/

/-- Character-list length of a string (JS `s.length` on the ASCII data used
here). -/
def strLen (s : String) : Nat := s.toList.length

/-- JS `s.slice(0, n)` / `s.substring(0, n)`. -/
def strTake (s : String) (n : Nat) : String := String.mk (s.toList.take n)

/-- Drop the first `n` characters (used for `s.substring(2, 5)` on 5-char
strings). -/
def strDropCL (s : String) (n : Nat) : String := String.mk (s.toList.drop n)

/-- JS `s.trim()`: strip whitespace from both ends. -/
def strTrim (s : String) : String :=
  String.mk (((s.toList.dropWhile Char.isWhitespace).reverse.dropWhile
    Char.isWhitespace).reverse)

/-- Whether `pat` is a leading segment of `s` (JS `s.startsWith(pat)`),
computed on character lists. -/
def charListLeads : List Char → List Char → Bool
  | _, [] => true
  | [], _ :: _ => false
  | a :: as, b :: bs => a == b && charListLeads as bs

/-- JS `s.startsWith(pat)`. -/
def strStarts (s pat : String) : Bool := charListLeads s.toList pat.toList

/-- Lexicographic `≤` on character lists by code point: the order produced by
JS `Array.prototype.sort()` / `localeCompare` on the ASCII digit strings the
code sorts. -/
def charListLe : List Char → List Char → Bool
  | [], _ => true
  | _ :: _, [] => false
  | a :: as, b :: bs =>
    if a.toNat = b.toNat then charListLe as bs
    else decide (a.toNat < b.toNat)

/-- Lexicographic `≤` on strings. -/
def strLe (a b : String) : Bool := charListLe a.toList b.toList

/-- JS regex `/^\d+$/`: one or more digits and nothing else. -/
def allDigits (s : String) : Bool :=
  decide (0 < strLen s) && s.toList.all Char.isDigit

/-- JS regex `/^\d{2}$/`: exactly two digits. -/
def twoDigits (s : String) : Bool :=
  decide (strLen s = 2) && s.toList.all Char.isDigit

/-- Value of a non-empty digit list. -/
def digitsToNat (ds : List Char) : Nat :=
  ds.foldl (fun acc c => acc * 10 + (c.toNat - 48)) 0

/-- JS `parseInt(s, 10)`: skip leading whitespace, optional sign, then the
longest digit run; `none` models `NaN` (no digits found). -/
def parseIntJS (s : String) : Option Int :=
  let cs := s.toList.dropWhile Char.isWhitespace
  let signed : Int × List Char :=
    match cs with
    | '-' :: rest => (-1, rest)
    | '+' :: rest => (1, rest)
    | _ => (1, cs)
  let ds := signed.2.takeWhile Char.isDigit
  if ds.isEmpty then none else some (signed.1 * (digitsToNat ds : Int))

/-- JS `a || b` for strings: `a` unless it is falsy (empty). -/
def jsStrOr (s d : String) : String := if s = "" then d else s

/-- JS `a || b` where `a` may be `undefined` (`none`). -/
def jsOptOr (o : Option String) (d : String) : String :=
  match o with
  | some s => jsStrOr s d
  | none => d

/-- JS template interpolation of a possibly-`undefined` string. -/
def jsUndef (o : Option String) : String := o.getD "undefined"

/-! ### Data model (`src/types/census.ts`) -/

/-- `ProcessedEmployerData`.  The UI-state fields (`subIndustries`,
`isExpanded`, `isLoadingSubIndustries`) are never set by the service layer and
are omitted; the optional county totals and `level` are `Option`s, matching
the `?` fields. -/
structure ProcessedEmployerData where
  industry : String
  employees : Int
  establishments : Int
  payroll : Int
  naicsCode : String
  location : String
  geoId : String
  countyTotalEmployees : Option Int := none
  countyTotalEstablishments : Option Int := none
  countyTotalPayroll : Option Int := none
  level : Option Nat := none
deriving Repr, DecidableEq

/-- `ApiError` (name and optional machine code). -/
structure ApiError where
  message : String
  code : Option String := none
deriving Repr, DecidableEq

/-- The `{state, county, name}` record returned by the ZIP → county
resolution. -/
structure County where
  state : String
  county : String
  name : String
deriving Repr, DecidableEq

/-- The `{employees, establishments, payroll}` county totals record. -/
structure CountyTotals where
  employees : Int
  establishments : Int
  payroll : Int
deriving Repr, DecidableEq

/-- `NAICSCode` (`src/services/naicsApi.ts`); the optional `description` field
is never produced by the embedded code paths and is omitted. -/
structure NAICSCode where
  code : String
  title : String
deriving Repr, DecidableEq

/-! ### HTTP environments -/

/-- Outcome of parsing a census API response body with `JSON.parse`: a JSON
array of rows (each row an array of string cells) or some non-array value. -/
inductive Jval where
  | arr (rows : List (List String))
  | notArr
deriving Repr, DecidableEq

/-- Body of a 2xx census response: blank text, text `JSON.parse` rejects, or a
parsed value. -/
inductive BodyOutcome where
  | blank
  | badJson
  | json (v : Jval)
deriving Repr, DecidableEq

/-- Outcome of one `fetch` against the census statistics API. -/
inductive FetchOutcome where
  | throw
  | notOk (status : Nat)
  | ok (body : BodyOutcome)
deriving Repr, DecidableEq

/-- The two kinds of census statistics requests the service builds (they
differ in their `get=` list and `NAICS2017` parameter). -/
inductive CensusReq where
  | totals (state county : String)
  | sector (state county naics : String)
deriving Repr, DecidableEq

/-- Census statistics API environment. -/
abbrev CensusEnv := CensusReq → FetchOutcome

/-- Outcome of the HUD USPS crosswalk lookup: `fail` covers a thrown fetch, a
non-2xx status, malformed JSON and an empty `data.results`; `result` carries
the `geoid`, `county_name` and `state_name` fields of `results[0]`. -/
inductive HudOutcome where
  | fail
  | result (geoid : String) (countyName stateName : Option String)
deriving Repr, DecidableEq

/-- HUD API environment, keyed by the normalized 5-digit ZIP. -/
abbrev HudEnv := String → HudOutcome

/-- One record of a NAICS dataHandler response (`result` array entries /
object values), with each field possibly absent. -/
structure NaicsRec where
  naics22 : Option String := none
  code : Option String := none
  title : Option String := none
  index_desc : Option String := none
  description : Option String := none
deriving Repr, DecidableEq

/-- Outcome of one NAICS dataHandler request: `fail` covers a thrown fetch, a
non-2xx status and malformed JSON; `ok` carries the records extracted from
`data.result` (array elements or `Object.values`). -/
inductive NaicsOutcome where
  | fail
  | ok (records : List NaicsRec)
deriving Repr, DecidableEq

/-- The three request shapes `NAICSApiService` builds: the chart query, a
sweep query for one seed character, and the proxied child-code search. -/
inductive NaicsReq where
  | chart (year : String)
  | sweep (year : String) (seed : String)
  | childSearch (input : String)
deriving Repr, DecidableEq

/-- NAICS API environment. -/
abbrev NaicsEnv := NaicsReq → NaicsOutcome

/-! ### `CensusApiService`: parsing and ZIP → county resolution -/

/-- `parseEmployeeCount`: suppression markers and unparsable values map to
`0`. -/
def parseEmployeeCount (value : String) : Int :=
  if value = "" ∨ value = "null" ∨ value = "N" ∨ value = "D" ∨ value = "S" then 0
  else
    match parseIntJS value with
    | none => 0
    | some n => n

/-- `parsePayroll`: same guard, but the census reports payroll in thousands of
dollars, so the parsed value is multiplied by 1000. -/
def parsePayroll (value : String) : Int :=
  if value = "" ∨ value = "null" ∨ value = "N" ∨ value = "D" ∨ value = "S" then 0
  else
    match parseIntJS value with
    | none => 0
    | some n => n * 1000

/-- The ZIP normalization in `countyFromZip_viaHUD`:
`(zip || "").replace(/\D/g, "").padStart(5, "0").slice(0, 5)`. -/
def normalizeZip (zip : String) : String :=
  let digits := zip.toList.filter Char.isDigit
  let padded :=
    if digits.length < 5 then List.replicate (5 - digits.length) '0' ++ digits
    else digits
  String.mk (padded.take 5)

/-- `countyFromZip_viaHUD`: resolve the ZIP through the HUD crosswalk; any
failure, missing result, or a `geoid` that is not 5 characters long is a
thrown error (`Except.error`). -/
def countyFromZip_viaHUD (henv : HudEnv) (zip : String) : Except Unit County :=
  let z := normalizeZip zip
  match henv z with
  | HudOutcome.fail => Except.error ()
  | HudOutcome.result geoid countyName stateName =>
    if strLen geoid = 5 then
      Except.ok
        { state := strTake geoid 2
          county := strTake (strDropCL geoid 2) 3
          name := jsUndef countyName ++ ", " ++ jsUndef stateName }
    else Except.error ()

/-- `getCountyFallback`: the hardcoded ZIP → county mapping used when the HUD
lookup throws. -/
def getCountyFallback (zipCode : String) : Option County :=
  match zipCode with
  | "02459" => some { state := "25", county := "017", name := "Middlesex County, MA" }
  | "02138" => some { state := "25", county := "017", name := "Middlesex County, MA" }
  | "02115" => some { state := "25", county := "025", name := "Suffolk County, MA" }
  | "02101" => some { state := "25", county := "025", name := "Suffolk County, MA" }
  | "02116" => some { state := "25", county := "025", name := "Suffolk County, MA" }
  | "02134" => some { state := "25", county := "025", name := "Suffolk County, MA" }
  | "10001" => some { state := "36", county := "061", name := "New York County, NY" }
  | "10002" => some { state := "36", county := "061", name := "New York County, NY" }
  | "10003" => some { state := "36", county := "061", name := "New York County, NY" }
  | "11201" => some { state := "36", county := "047", name := "Kings County, NY" }
  | "90210" => some { state := "06", county := "037", name := "Los Angeles County, CA" }
  | "90211" => some { state := "06", county := "037", name := "Los Angeles County, CA" }
  | "94102" => some { state := "06", county := "075", name := "San Francisco County, CA" }
  | "94103" => some { state := "06", county := "075", name := "San Francisco County, CA" }
  | "60601" => some { state := "17", county := "031", name := "Cook County, IL" }
  | "60602" => some { state := "17", county := "031", name := "Cook County, IL" }
  | "60603" => some { state := "17", county := "031", name := "Cook County, IL" }
  | "77001" => some { state := "48", county := "201", name := "Harris County, TX" }
  | "75201" => some { state := "48", county := "113", name := "Dallas County, TX" }
  | "33101" => some { state := "12", county := "086", name := "Miami-Dade County, FL" }
  | "33102" => some { state := "12", county := "086", name := "Miami-Dade County, FL" }
  | "98101" => some { state := "53", county := "033", name := "King County, WA" }
  | "98102" => some { state := "53", county := "033", name := "King County, WA" }
  | "20810" => some { state := "24", county := "031", name := "Montgomery County, MD" }
  | _ => none

/-- `getCountyFromZip`: try the HUD method; if it throws, fall back to the
static mapping (which may itself yield `null`). -/
def getCountyFromZip (henv : HudEnv) (zipCode : String) : Option County :=
  match countyFromZip_viaHUD henv zipCode with
  | Except.ok c => some c
  | Except.error _ => getCountyFallback zipCode

/-! ### `NAICSApiService`: cache, chart / sweep methods, child-code search -/

/-- The static `cache : Map<string, NAICSCode[]>`, modelled as an association
list where `cacheSet` prepends (later writes shadow earlier ones; `cacheGet`
reads the most recent write, exactly the observable behaviour of `Map`). -/
abbrev Cache := List (String × List NAICSCode)

/-- `cache.get(k)` (`none` when `cache.has(k)` is false). -/
def cacheGet (c : Cache) (k : String) : Option (List NAICSCode) :=
  (c.find? (fun p => decide (p.1 = k))).map (fun p => p.2)

/-- `cache.set(k, v)`. -/
def cacheSet (c : Cache) (k : String) (v : List NAICSCode) : Cache :=
  (k, v) :: c

/-- Code/title extraction of `tryChartMethod`:
`(item.code || item.naics22 || '').toString().trim()` and
`(item.title || item.index_desc || '').toString().trim()`; two-digit codes go
into the `codes` set (insertion order, deduplicated) and truthy titles into
the `titles` record (later writes overwrite). -/
def chartAdd (acc : List String × List (String × String)) (it : NaicsRec) :
    List String × List (String × String) :=
  let code := strTrim (jsOptOr it.code (jsOptOr it.naics22 ""))
  let title := strTrim (jsOptOr it.title (jsOptOr it.index_desc ""))
  if twoDigits code then
    (if code ∈ acc.1 then acc.1 else acc.1 ++ [code],
     if title = "" then acc.2 else (code, title) :: acc.2)
  else acc

/-- Record lookup `titles[code]` (the most recent write wins). -/
def recGet (m : List (String × String)) (k : String) : Option String :=
  (m.find? (fun p => decide (p.1 = k))).map (fun p => p.2)

/-- `tryChartMethod`: one chart-shaped query; every failure is caught and
returns `[]`; otherwise the collected two-digit codes, sorted, each paired
with its recorded title or the `NAICS <code>` default. -/
def tryChartMethod (env : NaicsEnv) (year : String) : List NAICSCode :=
  match env (NaicsReq.chart year) with
  | NaicsOutcome.fail => []
  | NaicsOutcome.ok items =>
    let cts := items.foldl chartAdd ([], [])
    (cts.1.mergeSort strLe).map
      (fun code => { code := code, title := jsOptOr (recGet cts.2 code) ("NAICS " ++ code) })

/-- Record extraction of `sweepSearchMethod`: only `rec.naics22` is consulted
for the code; a two-digit code not yet in the map is stored with its truthy
title or the `NAICS <code>` default. -/
def sweepAdd (acc : List (String × String)) (r : NaicsRec) : List (String × String) :=
  let code := strTrim (jsOptOr r.naics22 "")
  let title := strTrim (jsOptOr r.title (jsOptOr r.index_desc ""))
  if twoDigits code then
    if (acc.find? (fun p => decide (p.1 = code))).isSome then acc
    else acc ++ [(code, if title = "" then "NAICS " ++ code else title)]
  else acc

/-- The 36 one-character seeds `'0123456789abcdefghijklmnopqrstuvwxyz'`. -/
def sweepSeeds : List String :=
  "0123456789abcdefghijklmnopqrstuvwxyz".toList.map (fun c => String.mk [c])

/-- `sweepSearchMethod`: one query per seed, failures skipped (`continue`),
results deduplicated in a map and finally sorted by code. -/
def sweepSearchMethod (env : NaicsEnv) (year : String) : List NAICSCode :=
  let codes := sweepSeeds.foldl
    (fun acc seed =>
      match env (NaicsReq.sweep year seed) with
      | NaicsOutcome.fail => acc
      | NaicsOutcome.ok recs => recs.foldl sweepAdd acc)
    []
  (codes.mergeSort (fun p q => strLe p.1 q.1)).map (fun p => { code := p.1, title := p.2 })

/-- `getFallbackNAICSCodes`: the static list returned when both fetch methods
come back empty. -/
def getFallbackNAICSCodes : List NAICSCode :=
  [ { code := "11", title := "Agriculture, Forestry, Fishing and Hunting" },
    { code := "21", title := "Mining, Quarrying, and Oil and Gas Extraction" },
    { code := "22", title := "Utilities" },
    { code := "23", title := "Construction" },
    { code := "31", title := "Manufacturing" },
    { code := "32", title := "Manufacturing" },
    { code := "33", title := "Manufacturing" },
    { code := "42", title := "Wholesale Trade" },
    { code := "44", title := "Retail Trade" },
    { code := "45", title := "Retail Trade" },
    { code := "48", title := "Transportation and Warehousing" },
    { code := "49", title := "Transportation and Warehousing" },
    { code := "51", title := "Information" },
    { code := "52", title := "Finance and Insurance" },
    { code := "53", title := "Real Estate and Rental and Leasing" },
    { code := "54", title := "Professional, Scientific, and Technical Services" },
    { code := "55", title := "Management of Companies and Enterprises" },
    { code := "56", title := "Administrative and Support and Waste Management" },
    { code := "61", title := "Educational Services" },
    { code := "62", title := "Health Care and Social Assistance" },
    { code := "71", title := "Arts, Entertainment, and Recreation" },
    { code := "72", title := "Accommodation and Food Services" },
    { code := "81", title := "Other Services (except Public Administration)" },
    { code := "92", title := "Public Administration" },
    { code := "621", title := "Ambulatory Health Care Services" },
    { code := "622", title := "Hospitals" },
    { code := "623", title := "Nursing and Residential Care Facilities" },
    { code := "624", title := "Social Assistance" },
    { code := "611", title := "Educational Services" },
    { code := "541", title := "Professional, Scientific, and Technical Services" },
    { code := "722", title := "Food Services and Drinking Places" },
    { code := "721", title := "Accommodation" },
    { code := "236", title := "Construction of Buildings" },
    { code := "237", title := "Heavy and Civil Engineering Construction" },
    { code := "238", title := "Specialty Trade Contractors" },
    { code := "441", title := "Motor Vehicle and Parts Dealers" },
    { code := "445", title := "Food and Beverage Stores" },
    { code := "452", title := "General Merchandise Stores" },
    { code := "561", title := "Administrative and Support Services" },
    { code := "562", title := "Waste Management and Remediation Services" },
    { code := "311", title := "Food Manufacturing" },
    { code := "332", title := "Fabricated Metal Product Manufacturing" },
    { code := "333", title := "Machinery Manufacturing" },
    { code := "334", title := "Computer and Electronic Product Manufacturing" },
    { code := "484", title := "Truck Transportation" },
    { code := "493", title := "Warehousing and Storage" },
    { code := "522", title := "Credit Intermediation and Related Activities" } ]

/-- `getFallbackChildCodes`: deliberately empty ("rely on dynamic search
only"). -/
def getFallbackChildCodes (_parentCode : String) : List NAICSCode := []

/-- `fetchNAICSCodes`: serve `all-<year>` from the cache when present;
otherwise chart method, then sweep method, then the static fallback, caching
whichever list is returned.  In the source every throw inside the two methods
is caught locally (each returns `[]` on failure), so the outer `catch` is
unreachable and the function is total.  The `Nat` component counts HTTP
queries issued (1 for the chart attempt, 36 more for a sweep). -/
def fetchNAICSCodes (env : NaicsEnv) (cache : Cache) (year : String) :
    List NAICSCode × Cache × Nat :=
  let cacheKey := "all-" ++ year
  match cacheGet cache cacheKey with
  | some v => (v, cache, 0)
  | none =>
    let chart := tryChartMethod env year
    if chart.isEmpty then
      let swept := sweepSearchMethod env year
      if swept.isEmpty then
        (getFallbackNAICSCodes, cacheSet cache cacheKey getFallbackNAICSCodes, 37)
      else (swept, cacheSet cache cacheKey swept, 37)
    else (chart, cacheSet cache cacheKey chart, 1)

/-- The direct-child test of `searchChildCodes`:
`code.length === targetLength && code.startsWith(parentCode) &&
/^\d+$/.test(code)` with `targetLength = parentCode.length + 1`. -/
def goodChildB (parentCode code : String) : Bool :=
  decide (strLen code = strLen parentCode + 1) && strStarts code parentCode
    && allDigits code

/-- Record filter of `searchChildCodes`: a record contributes
`(rec.naics22 || rec.code || '').toString().trim()` as a candidate code,
kept only when it passes the direct-child test; codes already present are
skipped. -/
def childAdd (parentCode : String) (acc : List (String × String)) (r : NaicsRec) :
    List (String × String) :=
  let code := strTrim (jsOptOr r.naics22 (jsOptOr r.code ""))
  let title := strTrim (jsOptOr r.title (jsOptOr r.index_desc (jsOptOr r.description "")))
  if goodChildB parentCode code then
    if (acc.find? (fun p => decide (p.1 = code))).isSome then acc
    else acc ++ [(code, jsStrOr title ("NAICS " ++ code))]
  else acc

/-- The search-strategy loop of `searchChildCodes`: one query per strategy,
failed requests are skipped (`continue`), and the loop stops (`break`) as
soon as the accumulated code map is non-empty after processing a successful
response.  Returns the accumulated `(code, title)` map and the number of
queries issued. -/
def searchChildLoop (env : NaicsEnv) (parentCode : String) :
    List String → List (String × String) → List (String × String) × Nat
  | [], acc => (acc, 0)
  | t :: ts, acc =>
    match env (NaicsReq.childSearch t) with
    | NaicsOutcome.fail =>
      let r := searchChildLoop env parentCode ts acc
      (r.1, r.2 + 1)
    | NaicsOutcome.ok recs =>
      let acc' := recs.foldl (childAdd parentCode) acc
      if acc'.isEmpty then
        let r := searchChildLoop env parentCode ts acc'
        (r.1, r.2 + 1)
      else (acc', 1)

/-- `searchChildCodes`: the five search strategies, then — if anything was
found — the collected codes sorted ascending (`localeCompare`) and paired
with their titles. -/
def searchChildCodes (env : NaicsEnv) (parentCode : String) : List NAICSCode × Nat :=
  let strategies :=
    [parentCode, parentCode ++ "*", parentCode ++ "0", parentCode ++ "1",
     strTake parentCode 2]
  let r := searchChildLoop env parentCode strategies []
  if r.1.isEmpty then ([], r.2)
  else
    ((r.1.mergeSort (fun p q => strLe p.1 q.1)).map
      (fun p => { code := p.1, title := p.2 }), r.2)

/-- `getChildCodes`: serve `children-<parent>` from the cache when present,
otherwise run the dynamic search and cache its result.  `searchChildCodes`
catches every request failure internally, so the `catch` branch returning
`getFallbackChildCodes` is unreachable and the function is total. -/
def getChildCodes (env : NaicsEnv) (cache : Cache) (parentCode : String) :
    List NAICSCode × Cache × Nat :=
  let cacheKey := "children-" ++ parentCode
  match cacheGet cache cacheKey with
  | some v => (v, cache, 0)
  | none =>
    let r := searchChildCodes env parentCode
    (r.1, cacheSet cache cacheKey r.1, r.2)

/-! ### `CensusApiService`: county data fetchers -/

/-- The fixed 2-digit NAICS sector fan-out list (`naicsCodes` field). -/
def naicsCodes : List String :=
  ["11", "21", "22", "23", "31", "32", "33", "42", "44", "45", "48", "49",
   "51", "52", "53", "54", "55", "56", "61", "62", "71", "72", "81", "92"]

/-- `fetchCountyTotals`: county-wide totals (`NAICS2017=00`); every failure
branch — error status, blank body, malformed JSON, non-array data, fewer than
two rows, or a thrown error — yields the zero record. -/
def fetchCountyTotals (env : CensusEnv) (state county _originalZip : String) :
    CountyTotals :=
  match env (CensusReq.totals state county) with
  | FetchOutcome.throw => { employees := 0, establishments := 0, payroll := 0 }
  | FetchOutcome.notOk _ => { employees := 0, establishments := 0, payroll := 0 }
  | FetchOutcome.ok BodyOutcome.blank => { employees := 0, establishments := 0, payroll := 0 }
  | FetchOutcome.ok BodyOutcome.badJson => { employees := 0, establishments := 0, payroll := 0 }
  | FetchOutcome.ok (BodyOutcome.json Jval.notArr) =>
    { employees := 0, establishments := 0, payroll := 0 }
  | FetchOutcome.ok (BodyOutcome.json (Jval.arr rows)) =>
    if rows.length < 2 then { employees := 0, establishments := 0, payroll := 0 }
    else
      let row := rows.getD 1 []
      { employees := parseEmployeeCount (row.getD 1 "")
        establishments := parseEmployeeCount (row.getD 2 "")
        payroll := parsePayroll (row.getD 3 "") }

/-- One data row of `fetchCountySectorData`: columns are
`NAME, NAICS2017_LABEL, EMP, ESTAB, PAYANN, GEO_ID`; rows whose three metrics
are all non-positive are dropped. -/
def rowToProcessed (naics : String) (row : List String) :
    Option ProcessedEmployerData :=
  let employees := parseEmployeeCount (row.getD 2 "")
  let establishments := parseEmployeeCount (row.getD 3 "")
  let payroll := parsePayroll (row.getD 4 "")
  if 0 < employees ∨ 0 < establishments ∨ 0 < payroll then
    some
      { industry := jsStrOr (row.getD 1 "") ("NAICS " ++ naics)
        employees := employees
        establishments := establishments
        payroll := payroll
        naicsCode := naics
        location := jsStrOr (row.getD 0 "") "Unknown Location"
        geoId := row.getD 5 ""
        level := some (strLen naics) }
  else none

/-- `fetchCountySectorData`: one sector query; every failure branch returns
`[]`, otherwise the data rows (header skipped) are converted and filtered. -/
def fetchCountySectorData (env : CensusEnv) (state county naics _originalZip : String) :
    List ProcessedEmployerData :=
  match env (CensusReq.sector state county naics) with
  | FetchOutcome.throw => []
  | FetchOutcome.notOk _ => []
  | FetchOutcome.ok BodyOutcome.blank => []
  | FetchOutcome.ok BodyOutcome.badJson => []
  | FetchOutcome.ok (BodyOutcome.json Jval.notArr) => []
  | FetchOutcome.ok (BodyOutcome.json (Jval.arr rows)) =>
    if rows.length < 2 then []
    else (rows.drop 1).filterMap (rowToProcessed naics)

/-- The filter predicate `item.employees > 0 || item.establishments > 0 ||
item.payroll > 0`. -/
def hasDataB (i : ProcessedEmployerData) : Bool :=
  decide (0 < i.employees) || decide (0 < i.establishments) || decide (0 < i.payroll)

/-- The comparator `(a, b) => b.employees - a.employees` as a `≤`-style
relation: `a` may precede `b` when its employee count is at least `b`'s. -/
def empSortLe (a b : ProcessedEmployerData) : Bool :=
  decide (b.employees ≤ a.employees)

/-- `fetchEmploymentByCounty`: fan out over the fixed sector list (a sector
whose query fails contributes `[]` and the loop continues), then filter out
items with no data and sort by employees, descending. -/
def fetchEmploymentByCounty (env : CensusEnv) (state county originalZip : String) :
    List ProcessedEmployerData :=
  let results := naicsCodes.flatMap
    (fun naics => fetchCountySectorData env state county naics originalZip)
  (results.filter hasDataB).mergeSort empSortLe

/-- `fetchSubIndustries`: resolve the child codes of `parentNaicsCode` (via
the shared `NAICSApiService` cache), return `[]` when there are none,
otherwise fetch each child sector (failures contribute `[]`), stamp each item
with the child-code level, filter out items with no data and sort by
employees, descending.  Returns the result together with the updated cache. -/
def fetchSubIndustries (cenv : CensusEnv) (nenv : NaicsEnv) (cache : Cache)
    (state county parentNaicsCode originalZip : String) :
    List ProcessedEmployerData × Cache :=
  let r := getChildCodes nenv cache parentNaicsCode
  let childCodes := r.1
  let cache' := r.2.1
  if childCodes.isEmpty then ([], cache')
  else
    let results := childCodes.flatMap
      (fun cc =>
        (fetchCountySectorData cenv state county cc.code originalZip).map
          (fun item => { item with level := some (strLen cc.code) }))
    ((results.filter hasDataB).mergeSort empSortLe, cache')

/-- `fetchEmploymentDataForZip`: resolve the county (throwing when it cannot
be found — the only throw the outer `catch` can see, which it wraps in an
`ApiError`), fetch the per-sector list and the county totals in parallel, and
attach the totals to every sector item. -/
def fetchEmploymentDataForZip (cenv : CensusEnv) (henv : HudEnv) (zipCode : String) :
    Except ApiError (List ProcessedEmployerData) :=
  match getCountyFromZip henv zipCode with
  | none =>
    Except.error
      { message := "Failed to fetch employment data: Could not find county for ZIP code "
          ++ zipCode }
  | some county =>
    let sectorData := fetchEmploymentByCounty cenv county.state county.county zipCode
    let totals := fetchCountyTotals cenv county.state county.county zipCode
    Except.ok (sectorData.map
      (fun sector =>
        { sector with
          countyTotalEmployees := some totals.employees
          countyTotalEstablishments := some totals.establishments
          countyTotalPayroll := some totals.payroll }))

/-! ### `EmployerResults` component -/

/-- `getStateCountyFromLocation` (from `EmployerResults.tsx`): the state and
county FIPS codes passed to `onExpandIndustry` and hence to
`fetchSubIndustries`.  It ignores its `location` argument and looks the
component's `zipCode` prop up in a four-entry table, defaulting to
`{ state: '25', county: '017' }` (Middlesex County, MA). -/
def getStateCountyFromLocation (zipCode : String) (_location : String) :
    String × String :=
  match zipCode with
  | "02459" => ("25", "017")
  | "10001" => ("36", "061")
  | "90210" => ("06", "037")
  | "60601" => ("17", "031")
  | _ => ("25", "017")

/-! ### Concrete environments used by the witnesses -/

/-- A HUD environment in which every lookup fails. -/
def hudFailEnv : HudEnv := fun _ => HudOutcome.fail

/-- A census environment in which every fetch throws. -/
def censusThrowEnv : CensusEnv := fun _ => FetchOutcome.throw

/-- A NAICS environment in which every request fails. -/
def naicsFailEnv : NaicsEnv := fun _ => NaicsOutcome.fail

/-- A NAICS environment that answers the child search for `"62"` with one
record and fails every other request. -/
def naicsChildEnv : NaicsEnv := fun r =>
  match r with
  | NaicsReq.childSearch "62" =>
    NaicsOutcome.ok [{ naics22 := some "621", title := some "Ambulatory Health Care Services" }]
  | _ => NaicsOutcome.fail

/-- A census environment with data for sector `621` of Middlesex County, MA,
throwing on every other request. -/
def censusSectorEnv : CensusEnv := fun r =>
  match r with
  | CensusReq.sector "25" "017" "621" =>
    FetchOutcome.ok (BodyOutcome.json (Jval.arr
      [["NAME", "NAICS2017_LABEL", "EMP", "ESTAB", "PAYANN", "GEO_ID"],
       ["Middlesex County, Massachusetts", "Ambulatory Health Care Services",
        "100", "10", "5000", "0500000US25017"]]))
  | _ => FetchOutcome.throw

/-- The single sub-industry item the two witness environments produce for the
drill-down from sector `62` into `621`. -/
def witnessItem : ProcessedEmployerData :=
  { industry := "Ambulatory Health Care Services"
    employees := 100
    establishments := 10
    payroll := 5000000
    naicsCode := "621"
    location := "Middlesex County, Massachusetts"
    geoId := "0500000US25017"
    level := some 3 }

/-! ### Specification-side predicates -/

/-- The failure modes of one census fetch: thrown request, error status,
blank body, or malformed JSON. -/
def fetchFails (o : FetchOutcome) : Prop :=
  o = FetchOutcome.throw ∨ (∃ st, o = FetchOutcome.notOk st) ∨
    o = FetchOutcome.ok BodyOutcome.blank ∨ o = FetchOutcome.ok BodyOutcome.badJson

/-- What a well-formed `children-<parent>` cache entry holds: direct children
of the parent, pairwise sorted ascending, with no duplicate codes. -/
def childListOK (parentCode : String) (v : List NAICSCode) : Prop :=
  (∀ x ∈ v, goodChildB parentCode x.code = true) ∧
  List.Pairwise (fun a b : NAICSCode => strLe a.code b.code = true) v ∧
  (v.map (fun x => x.code)).Nodup

/-- The invariant every cache reachable by the service satisfies:
`all-<year>` entries are non-empty (they are only written by
`fetchNAICSCodes`, which falls back to the non-empty static list) and
`children-<parent>` entries are well-formed child lists (they are only
written by `getChildCodes` from `searchChildCodes` results). -/
def cacheWF (c : Cache) : Prop :=
  ∀ k v, cacheGet c k = some v →
    (∀ year, k = "all-" ++ year → v ≠ []) ∧
    (∀ p, k = "children-" ++ p → childListOK p v)

/-! ### Helper lemmas: orders, cache, parsing -/

theorem charListLe_trans : ∀ a b c : List Char,
    charListLe a b = true → charListLe b c = true → charListLe a c = true := by
  intro a
  induction a with
  | nil => intro b c _ _; simp [charListLe]
  | cons x xs ih =>
    intro b c h1 h2
    cases b with
    | nil => simp [charListLe] at h1
    | cons y ys =>
      cases c with
      | nil => simp [charListLe] at h2
      | cons z zs =>
        simp only [charListLe] at h1 h2 ⊢
        by_cases hxy : x.toNat = y.toNat <;> by_cases hyz : y.toNat = z.toNat
        · simp only [if_pos hxy] at h1
          simp only [if_pos hyz] at h2
          simp only [if_pos (hxy.trans hyz)]
          exact ih ys zs h1 h2
        · simp only [if_pos hxy] at h1
          simp only [if_neg hyz, decide_eq_true_eq] at h2
          have hxz : ¬ x.toNat = z.toNat := by omega
          simp only [if_neg hxz, decide_eq_true_eq]
          omega
        · simp only [if_neg hxy, decide_eq_true_eq] at h1
          have hxz : ¬ x.toNat = z.toNat := by omega
          simp only [if_neg hxz, decide_eq_true_eq]
          omega
        · simp only [if_neg hxy, decide_eq_true_eq] at h1
          simp only [if_neg hyz, decide_eq_true_eq] at h2
          have hxz : ¬ x.toNat = z.toNat := by omega
          simp only [if_neg hxz, decide_eq_true_eq]
          omega

theorem charListLe_total : ∀ a b : List Char,
    charListLe a b = true ∨ charListLe b a = true := by
  intro a
  induction a with
  | nil => intro b; left; simp [charListLe]
  | cons x xs ih =>
    intro b
    cases b with
    | nil => right; simp [charListLe]
    | cons y ys =>
      by_cases h : x.toNat = y.toNat
      · rcases ih ys with h1 | h1
        · left; simp [charListLe, h, h1]
        · right; simp [charListLe, h.symm, h1]
      · rcases Nat.lt_or_ge x.toNat y.toNat with hlt | hge
        · left; simp [charListLe, h, hlt]
        · have h' : ¬ y.toNat = x.toNat := fun e => h e.symm
          have hlt : y.toNat < x.toNat := by omega
          right; simp [charListLe, h', hlt]

theorem strLe_trans {a b c : String} (h1 : strLe a b = true) (h2 : strLe b c = true) :
    strLe a c = true :=
  charListLe_trans a.toList b.toList c.toList h1 h2

theorem strLe_total (a b : String) : (strLe a b || strLe b a) = true := by
  rw [Bool.or_eq_true]
  exact charListLe_total a.toList b.toList

theorem empSortLe_trans (a b c : ProcessedEmployerData) :
    empSortLe a b = true → empSortLe b c = true → empSortLe a c = true := by
  simp only [empSortLe, decide_eq_true_eq]
  omega

theorem empSortLe_total (a b : ProcessedEmployerData) :
    (empSortLe a b || empSortLe b a) = true := by
  simp only [empSortLe, Bool.or_eq_true, decide_eq_true_eq]
  omega

theorem cacheGet_set_self (c : Cache) (k : String) (v : List NAICSCode) :
    cacheGet (cacheSet c k v) k = some v := by
  simp [cacheGet, cacheSet, List.find?_cons]

theorem cacheGet_set_ne (c : Cache) (k k' : String) (v : List NAICSCode)
    (h : ¬ k = k') : cacheGet (cacheSet c k v) k' = cacheGet c k' := by
  simp [cacheGet, cacheSet, List.find?_cons, h]

theorem cacheWF_nil : cacheWF ([] : Cache) := by
  intro k v h
  simp [cacheGet] at h

/-! ### C9: suppression markers and parsing -/

/-- C9: `parseEmployeeCount` returns `0` when the value is empty, `null`,
`N`, `D` or `S`, or when `parseInt` cannot parse it, and otherwise the parsed
integer; `parsePayroll` applies the same guard but scales the parsed integer
by 1000 (payroll is reported in thousands of dollars), so census suppression
markers always map to `0` rather than an error. -/
theorem C9_parse_guards (v : String) (n : Int) :
    ((v = "" ∨ v = "null" ∨ v = "N" ∨ v = "D" ∨ v = "S") →
       parseEmployeeCount v = 0 ∧ parsePayroll v = 0) ∧
    (parseIntJS v = none → parseEmployeeCount v = 0 ∧ parsePayroll v = 0) ∧
    (¬ (v = "" ∨ v = "null" ∨ v = "N" ∨ v = "D" ∨ v = "S") → parseIntJS v = some n →
       parseEmployeeCount v = n ∧ parsePayroll v = n * 1000) ∧
    parsePayroll v = 1000 * parseEmployeeCount v := by
  refine ⟨?_, ?_, ?_, ?_⟩
  · intro h
    simp [parseEmployeeCount, parsePayroll, h]
  · intro h
    simp [parseEmployeeCount, parsePayroll, h]
  · intro hg hp
    simp [parseEmployeeCount, parsePayroll, hg, hp]
  · by_cases hg : v = "" ∨ v = "null" ∨ v = "N" ∨ v = "D" ∨ v = "S"
    · simp [parseEmployeeCount, parsePayroll, hg]
    · cases hp : parseIntJS v <;>
        simp [parseEmployeeCount, parsePayroll, hg, hp]
      ring

/-- Witness for C9 at the suppression marker `D` and the ordinary value
`1523`. -/
theorem C9_parse_guards_witness :
    (parseEmployeeCount "D" = 0 ∧ parsePayroll "D" = 0) ∧
    (parseEmployeeCount "1523" = 1523 ∧ parsePayroll "1523" = 1523 * 1000) :=
  ⟨(C9_parse_guards "D" 0).1 (by simp),
   (C9_parse_guards "1523" 1523).2.2.1 (by decide) (by decide)⟩

/-! ### C1: the county used on drill-down -/

/-- C1: counterexample to "the expand handler drills into the same county
that was resolved for the top-level query".  With the HUD lookup failing, the
top-level query for ZIP 98101 resolves King County, WA (FIPS 53/033) through
the static fallback mapping, but `getStateCountyFromLocation` — whose result
`EmployerResults` passes to `onExpandIndustry` and hence to
`fetchSubIndustries` — does not know ZIP 98101 and returns its default
(25, 017), Middlesex County, MA: a different county. -/
theorem C1_expand_county_mismatch :
    getCountyFromZip hudFailEnv "98101"
      = some { state := "53", county := "033", name := "King County, WA" } ∧
    getCountyFallback "98101"
      = some { state := "53", county := "033", name := "King County, WA" } ∧
    getStateCountyFromLocation "98101" "King County, WA" = ("25", "017") ∧
    (("25", "017") : String × String) ≠ ("53", "033") := by
  refine ⟨by decide, by decide, rfl, by decide⟩

/-! ### C3: ZIP → county fallback order -/

/-- C3: the resolution order is fixed: a successful HUD lookup is returned
as-is; a thrown HUD lookup falls back to the hardcoded static mapping; and
when the resolution yields no county at all, `fetchEmploymentDataForZip`
returns an `ApiError` instead of data. -/
theorem C3_county_resolution_order (henv : HudEnv) (cenv : CensusEnv)
    (zipCode : String) (county : County) :
    (countyFromZip_viaHUD henv zipCode = Except.ok county →
       getCountyFromZip henv zipCode = some county) ∧
    (countyFromZip_viaHUD henv zipCode = Except.error () →
       getCountyFromZip henv zipCode = getCountyFallback zipCode) ∧
    (getCountyFromZip henv zipCode = none →
       fetchEmploymentDataForZip cenv henv zipCode =
         Except.error
           { message :=
               "Failed to fetch employment data: Could not find county for ZIP code "
                 ++ zipCode }) := by
  refine ⟨?_, ?_, ?_⟩
  · intro h
    simp [getCountyFromZip, h]
  · intro h
    simp [getCountyFromZip, h]
  · intro h
    simp [fetchEmploymentDataForZip, h]

/-- Witness for C3: ZIP 99999 is in neither source, so resolution follows the
fallback and the top-level fetch reports the `ApiError`. -/
theorem C3_county_resolution_order_witness :
    getCountyFromZip hudFailEnv "99999" = getCountyFallback "99999" ∧
    fetchEmploymentDataForZip censusThrowEnv hudFailEnv "99999" =
      Except.error
        { message :=
            "Failed to fetch employment data: Could not find county for ZIP code "
              ++ "99999" } :=
  ⟨(C3_county_resolution_order hudFailEnv censusThrowEnv "99999" ⟨"", "", ""⟩).2.1
     rfl,
   (C3_county_resolution_order hudFailEnv censusThrowEnv "99999" ⟨"", "", ""⟩).2.2
     (by decide)⟩

/-! ### C2: county totals attached to every sector -/

/-- C2: whenever the county resolves, `fetchEmploymentDataForZip` returns
exactly the `fetchEmploymentByCounty` list in which every element
additionally carries the `fetchCountyTotals` triple for that county, all
other fields unchanged. -/
theorem C2_totals_attached (cenv : CensusEnv) (henv : HudEnv)
    (zipCode : String) (county : County)
    (h : getCountyFromZip henv zipCode = some county) :
    fetchEmploymentDataForZip cenv henv zipCode =
      Except.ok
        ((fetchEmploymentByCounty cenv county.state county.county zipCode).map
          (fun sector =>
            { sector with
              countyTotalEmployees :=
                some (fetchCountyTotals cenv county.state county.county zipCode).employees
              countyTotalEstablishments :=
                some (fetchCountyTotals cenv county.state county.county zipCode).establishments
              countyTotalPayroll :=
                some (fetchCountyTotals cenv county.state county.county zipCode).payroll })) := by
  simp [fetchEmploymentDataForZip, h]

/-- Witness for C2 at ZIP 02459 (Middlesex County via the static fallback)
with a census environment in which every fetch throws. -/
theorem C2_totals_attached_witness :
    fetchEmploymentDataForZip censusThrowEnv hudFailEnv "02459" =
      Except.ok
        ((fetchEmploymentByCounty censusThrowEnv "25" "017" "02459").map
          (fun sector =>
            { sector with
              countyTotalEmployees :=
                some (fetchCountyTotals censusThrowEnv "25" "017" "02459").employees
              countyTotalEstablishments :=
                some (fetchCountyTotals censusThrowEnv "25" "017" "02459").establishments
              countyTotalPayroll :=
                some (fetchCountyTotals censusThrowEnv "25" "017" "02459").payroll })) :=
  C2_totals_attached censusThrowEnv hudFailEnv "02459"
    { state := "25", county := "017", name := "Middlesex County, MA" } (by decide)

/-! ### C8: caching -/

/-- C8: taxonomy lookups are cached with no eviction: after one call of
`getChildCodes` (resp. `fetchNAICSCodes`), a second call with the same
argument — under any network environment — returns the identical cached
list, leaves the cache unchanged and issues zero HTTP queries; and no
existing cache entry is ever evicted by a call. -/
theorem C8_cache_idempotent (env env' : NaicsEnv) (cache : Cache)
    (parentCode year : String) :
    (getChildCodes env' (getChildCodes env cache parentCode).2.1 parentCode
       = ((getChildCodes env cache parentCode).1,
          (getChildCodes env cache parentCode).2.1, 0)) ∧
    (fetchNAICSCodes env' (fetchNAICSCodes env cache year).2.1 year
       = ((fetchNAICSCodes env cache year).1,
          (fetchNAICSCodes env cache year).2.1, 0)) ∧
    (∀ k v, cacheGet cache k = some v →
       cacheGet (getChildCodes env cache parentCode).2.1 k = some v) := by
  refine ⟨?_, ?_, ?_⟩
  · cases h : cacheGet cache ("children-" ++ parentCode) with
    | some v => simp [getChildCodes, h]
    | none => simp [getChildCodes, h, cacheGet_set_self]
  · cases h : cacheGet cache ("all-" ++ year) with
    | some v => simp [fetchNAICSCodes, h]
    | none =>
      by_cases hc : (tryChartMethod env year).isEmpty <;>
        by_cases hs : (sweepSearchMethod env year).isEmpty <;>
        simp [fetchNAICSCodes, h, hc, hs, cacheGet_set_self]
  · intro k v hk
    cases h : cacheGet cache ("children-" ++ parentCode) with
    | some w => simpa [getChildCodes, h] using hk
    | none =>
      by_cases hkey : ("children-" ++ parentCode) = k
      · rw [hkey] at h
        rw [h] at hk
        cases hk
      · simpa [getChildCodes, h, cacheGet_set_ne _ _ _ _ hkey] using hk

/-! ### C10: failures never propagate -/

/-- A `flatMap` is unchanged by removing elements on which the function
returns `[]`. -/
theorem flatMap_drop_nil {α β : Type} [DecidableEq α] (f : α → List β) (n : α)
    (hf : f n = []) (l : List α) :
    l.flatMap f = (l.filter (fun m => decide (¬ m = n))).flatMap f := by
  induction l with
  | nil => rfl
  | cons x xs ih =>
    by_cases hx : x = n
    · subst hx
      simp [List.flatMap_cons, List.filter_cons, hf, ih]
    · simp [List.flatMap_cons, List.filter_cons, hx, ih]

/-- When every child search fails, the strategy loop leaves its accumulator
unchanged. -/
theorem searchChildLoop_all_fail (env : NaicsEnv) (parentCode : String)
    (hfail : ∀ t, env (NaicsReq.childSearch t) = NaicsOutcome.fail) :
    ∀ (ts : List String) (acc : List (String × String)),
      (searchChildLoop env parentCode ts acc).1 = acc := by
  intro ts
  induction ts with
  | nil => intro acc; rfl
  | cons t ts ih =>
    intro acc
    simp only [searchChildLoop, hfail t]
    exact ih acc

/-- C10: the per-sector and drill-down fetchers never propagate a failure:
any HTTP failure (thrown request, error status, blank body, malformed JSON)
makes `fetchCountySectorData` return `[]` and `fetchCountyTotals` return the
zero totals; `fetchSubIndustries` returns `[]` when no child codes resolve —
in particular when every child search fails and nothing is cached; and a
failing sector never aborts the fan-out: `fetchEmploymentByCounty` computes
exactly what it would compute with the failing sector removed from the
fan-out list. -/
theorem C10_failures_contained (cenv : CensusEnv) (nenv : NaicsEnv)
    (cache : Cache) (state county naics parentNaicsCode originalZip : String) :
    (fetchFails (cenv (CensusReq.sector state county naics)) →
       fetchCountySectorData cenv state county naics originalZip = []) ∧
    (fetchFails (cenv (CensusReq.totals state county)) →
       fetchCountyTotals cenv state county originalZip =
         { employees := 0, establishments := 0, payroll := 0 }) ∧
    ((getChildCodes nenv cache parentNaicsCode).1 = [] →
       (fetchSubIndustries cenv nenv cache state county parentNaicsCode originalZip).1
         = []) ∧
    (cacheGet cache ("children-" ++ parentNaicsCode) = none →
       (∀ t, nenv (NaicsReq.childSearch t) = NaicsOutcome.fail) →
       (fetchSubIndustries cenv nenv cache state county parentNaicsCode originalZip).1
         = []) ∧
    (fetchFails (cenv (CensusReq.sector state county naics)) →
       fetchEmploymentByCounty cenv state county originalZip =
         (((naicsCodes.filter (fun m => decide (¬ m = naics))).flatMap
             (fun m => fetchCountySectorData cenv state county m originalZip)).filter
           hasDataB).mergeSort empSortLe) := by
  have hsector : fetchFails (cenv (CensusReq.sector state county naics)) →
      fetchCountySectorData cenv state county naics originalZip = [] := by
    intro h
    rcases h with h | ⟨st, h⟩ | h | h <;> simp [fetchCountySectorData, h]
  have hsub : (getChildCodes nenv cache parentNaicsCode).1 = [] →
      (fetchSubIndustries cenv nenv cache state county parentNaicsCode originalZip).1
        = [] := by
    intro h
    simp [fetchSubIndustries, h]
  refine ⟨hsector, ?_, hsub, ?_, ?_⟩
  · intro h
    rcases h with h | ⟨st, h⟩ | h | h <;> simp [fetchCountyTotals, h]
  · intro hmiss hfail
    apply hsub
    simp [getChildCodes, hmiss, searchChildCodes,
      searchChildLoop_all_fail nenv parentNaicsCode hfail]
  · intro h
    rw [fetchEmploymentByCounty,
      flatMap_drop_nil (fun m => fetchCountySectorData cenv state county m originalZip)
        naics (hsector h)]

/-- Witness for C10: a census environment in which every fetch throws and a
NAICS environment in which every request fails. -/
theorem C10_failures_contained_witness :
    fetchCountySectorData censusThrowEnv "25" "017" "62" "02459" = [] ∧
    fetchCountyTotals censusThrowEnv "25" "017" "02459" =
      { employees := 0, establishments := 0, payroll := 0 } ∧
    (fetchSubIndustries censusThrowEnv naicsFailEnv [] "25" "017" "62" "02459").1
      = [] :=
  ⟨(C10_failures_contained censusThrowEnv naicsFailEnv [] "25" "017" "62" "62"
      "02459").1 (Or.inl rfl),
   (C10_failures_contained censusThrowEnv naicsFailEnv [] "25" "017" "62" "62"
      "02459").2.1 (Or.inl rfl),
   (C10_failures_contained censusThrowEnv naicsFailEnv [] "25" "017" "62" "62"
      "02459").2.2.2.1 (by simp [cacheGet]) (fun t => rfl)⟩

/-! ### Child-code search invariants -/

theorem childAdd_keeps_good (parentCode : String) (acc : List (String × String))
    (r : NaicsRec) (h : ∀ p ∈ acc, goodChildB parentCode p.1 = true) :
    ∀ p ∈ childAdd parentCode acc r, goodChildB parentCode p.1 = true := by
  intro p hp
  simp only [childAdd] at hp
  split at hp
  · split at hp
    · exact h p hp
    · rcases List.mem_append.mp hp with h1 | h1
      · exact h p h1
      · rename_i hgood _
        simp only [List.mem_singleton] at h1
        subst h1
        exact hgood
  · exact h p hp

theorem childAdd_keeps_nodup (parentCode : String) (acc : List (String × String))
    (r : NaicsRec) (h : (acc.map Prod.fst).Nodup) :
    ((childAdd parentCode acc r).map Prod.fst).Nodup := by
  simp only [childAdd]
  split
  · split
    · exact h
    · rename_i hfind
      have hnone : acc.find?
          (fun p => decide (p.1 = strTrim (jsOptOr r.naics22 (jsOptOr r.code "")))) = none := by
        cases hfd : acc.find?
            (fun p => decide (p.1 = strTrim (jsOptOr r.naics22 (jsOptOr r.code "")))) with
        | none => rfl
        | some x => exact absurd (by simp [hfd]) hfind
      have hnotin : strTrim (jsOptOr r.naics22 (jsOptOr r.code "")) ∉ acc.map Prod.fst := by
        intro hmem
        obtain ⟨q, hq, hq1⟩ := List.mem_map.mp hmem
        have := List.find?_eq_none.mp hnone q hq
        simp [hq1] at this
      rw [List.map_append]
      simp only [List.map_cons, List.map_nil]
      rw [List.nodup_append]
      refine ⟨h, List.nodup_singleton _, ?_⟩
      intro a ha hb
      simp only [List.mem_singleton] at hb
      subst hb
      exact hnotin ha
  · exact h

theorem foldl_childAdd_good (parentCode : String) (recs : List NaicsRec) :
    ∀ acc, (∀ p ∈ acc, goodChildB parentCode p.1 = true) →
      ∀ p ∈ recs.foldl (childAdd parentCode) acc, goodChildB parentCode p.1 = true := by
  induction recs with
  | nil => intro acc h; simpa using h
  | cons r rs ih => intro acc h; exact ih _ (childAdd_keeps_good _ _ _ h)

theorem foldl_childAdd_nodup (parentCode : String) (recs : List NaicsRec) :
    ∀ acc, (acc.map Prod.fst).Nodup →
      (((recs.foldl (childAdd parentCode) acc)).map Prod.fst).Nodup := by
  induction recs with
  | nil => intro acc h; simpa using h
  | cons r rs ih => intro acc h; exact ih _ (childAdd_keeps_nodup _ _ _ h)

theorem searchChildLoop_good (env : NaicsEnv) (parentCode : String) (ts : List String) :
    ∀ acc, (∀ p ∈ acc, goodChildB parentCode p.1 = true) →
      ∀ p ∈ (searchChildLoop env parentCode ts acc).1, goodChildB parentCode p.1 = true := by
  induction ts with
  | nil => intro acc h; simpa [searchChildLoop] using h
  | cons t ts ih =>
    intro acc h
    simp only [searchChildLoop]
    cases env (NaicsReq.childSearch t) with
    | fail => exact ih acc h
    | ok recs =>
      dsimp only
      by_cases hE : (recs.foldl (childAdd parentCode) acc).isEmpty = true
      · rw [if_pos hE]
        exact ih (recs.foldl (childAdd parentCode) acc)
          (foldl_childAdd_good parentCode recs acc h)
      · rw [if_neg hE]
        exact foldl_childAdd_good parentCode recs acc h

theorem searchChildLoop_nodup (env : NaicsEnv) (parentCode : String) (ts : List String) :
    ∀ acc, (acc.map Prod.fst).Nodup →
      (((searchChildLoop env parentCode ts acc).1).map Prod.fst).Nodup := by
  induction ts with
  | nil => intro acc h; simpa [searchChildLoop] using h
  | cons t ts ih =>
    intro acc h
    simp only [searchChildLoop]
    cases env (NaicsReq.childSearch t) with
    | fail => exact ih acc h
    | ok recs =>
      dsimp only
      by_cases hE : (recs.foldl (childAdd parentCode) acc).isEmpty = true
      · rw [if_pos hE]
        exact ih (recs.foldl (childAdd parentCode) acc)
          (foldl_childAdd_nodup parentCode recs acc h)
      · rw [if_neg hE]
        exact foldl_childAdd_nodup parentCode recs acc h

theorem searchChildCodes_ok (env : NaicsEnv) (parentCode : String) :
    childListOK parentCode (searchChildCodes env parentCode).1 := by
  simp only [searchChildCodes]
  split
  · exact ⟨by simp, by simp, by simp⟩
  · rename_i hne
    set pairs := (searchChildLoop env parentCode
      [parentCode, parentCode ++ "*", parentCode ++ "0", parentCode ++ "1",
       strTake parentCode 2] []).1 with hpairs
    have hgood : ∀ p ∈ pairs, goodChildB parentCode p.1 = true :=
      searchChildLoop_good env parentCode _ [] (by simp)
    have hnodup : (pairs.map Prod.fst).Nodup :=
      searchChildLoop_nodup env parentCode _ [] (by simp)
    have hperm := List.mergeSort_perm pairs (fun p q => strLe p.1 q.1)
    refine ⟨?_, ?_, ?_⟩
    · intro x hx
      obtain ⟨p, hp, hpx⟩ := List.mem_map.mp hx
      have hp' : p ∈ pairs := List.mem_mergeSort.mp hp
      have := hgood p hp'
      rw [← hpx]
      exact this
    · rw [List.pairwise_map]
      have hs := @List.sorted_mergeSort (String × String)
        (fun p q => strLe p.1 q.1)
        (fun p q r hpq hqr => strLe_trans hpq hqr)
        (fun p q => strLe_total p.1 q.1) pairs
      exact hs
    · rw [List.map_map]
      have : ((List.mergeSort pairs fun p q => strLe p.1 q.1).map Prod.fst).Nodup :=
        ((hperm.map Prod.fst).nodup_iff).mpr hnodup
      exact this

theorem getChildCodes_ok (env : NaicsEnv) (cache : Cache) (parentCode : String)
    (hwf : cacheWF cache) :
    childListOK parentCode (getChildCodes env cache parentCode).1 := by
  cases h : cacheGet cache ("children-" ++ parentCode) with
  | some v =>
    have hv := (hwf _ _ h).2 parentCode rfl
    simpa [getChildCodes, h] using hv
  | none =>
    simpa [getChildCodes, h] using searchChildCodes_ok env parentCode

/-! ### C5: child codes are direct children, deduplicated and sorted -/

/-- C5: every code returned by `getChildCodes parentCode` is a direct child
of the parent — one character longer, starting with `parentCode`, and all
digits — and the returned list has no duplicate codes and is sorted in
ascending lexicographic order. -/
theorem C5_child_codes_direct (env : NaicsEnv) (cache : Cache)
    (parentCode : String) (hwf : cacheWF cache) :
    (∀ x ∈ (getChildCodes env cache parentCode).1,
        strLen x.code = strLen parentCode + 1 ∧
        strStarts x.code parentCode = true ∧
        x.code.toList.all Char.isDigit = true) ∧
    (((getChildCodes env cache parentCode).1.map (fun x => x.code)).Nodup) ∧
    List.Pairwise (fun a b : NAICSCode => strLe a.code b.code = true)
      (getChildCodes env cache parentCode).1 := by
  obtain ⟨h1, h2, h3⟩ := getChildCodes_ok env cache parentCode hwf
  refine ⟨?_, h3, h2⟩
  intro x hx
  have hg := h1 x hx
  simp only [goodChildB, allDigits, Bool.and_eq_true, decide_eq_true_eq] at hg
  exact ⟨hg.1.1, hg.1.2, hg.2.2⟩

/-- Witness for C5: the child search for `"62"` returning the single record
`621`, against the empty cache. -/
theorem C5_child_codes_direct_witness :
    (∀ x ∈ (getChildCodes naicsChildEnv [] "62").1,
        strLen x.code = strLen "62" + 1 ∧
        strStarts x.code "62" = true ∧
        x.code.toList.all Char.isDigit = true) ∧
    (((getChildCodes naicsChildEnv [] "62").1.map (fun x => x.code)).Nodup) ∧
    List.Pairwise (fun a b : NAICSCode => strLe a.code b.code = true)
      (getChildCodes naicsChildEnv [] "62").1 :=
  C5_child_codes_direct naicsChildEnv [] "62" cacheWF_nil

/-! ### C6: filtered to positive metrics and sorted by employees -/

/-- The post-processing shared by `fetchEmploymentByCounty` and
`fetchSubIndustries`: after `filter`/`sort`, every item has a positive
metric and employee counts are non-increasing. -/
theorem postprocess_ok (l : List ProcessedEmployerData) :
    (∀ x ∈ (l.filter hasDataB).mergeSort empSortLe,
       0 < x.employees ∨ 0 < x.establishments ∨ 0 < x.payroll) ∧
    List.Pairwise (fun a b : ProcessedEmployerData => b.employees ≤ a.employees)
      ((l.filter hasDataB).mergeSort empSortLe) := by
  constructor
  · intro x hx
    have hx' := List.mem_mergeSort.mp hx
    have hd := (List.mem_filter.mp hx').2
    have hd' : (0 < x.employees ∨ 0 < x.establishments) ∨ 0 < x.payroll := by
      simpa [hasDataB, Bool.or_eq_true, decide_eq_true_eq] using hd
    exact or_assoc.mp hd'
  · have hs := @List.sorted_mergeSort ProcessedEmployerData empSortLe
      empSortLe_trans empSortLe_total (l.filter hasDataB)
    exact hs.imp (fun h => by simpa [empSortLe, decide_eq_true_eq] using h)

/-- C6: the lists returned by `fetchEmploymentByCounty` and
`fetchSubIndustries` contain only items with at least one positive metric
(employees, establishments or payroll) and are sorted in non-increasing
order of the `employees` field. -/
theorem C6_filtered_sorted (cenv : CensusEnv) (nenv : NaicsEnv) (cache : Cache)
    (state county parentNaicsCode originalZip : String) :
    ((∀ x ∈ fetchEmploymentByCounty cenv state county originalZip,
        0 < x.employees ∨ 0 < x.establishments ∨ 0 < x.payroll) ∧
      List.Pairwise (fun a b : ProcessedEmployerData => b.employees ≤ a.employees)
        (fetchEmploymentByCounty cenv state county originalZip)) ∧
    ((∀ x ∈ (fetchSubIndustries cenv nenv cache state county parentNaicsCode
          originalZip).1,
        0 < x.employees ∨ 0 < x.establishments ∨ 0 < x.payroll) ∧
      List.Pairwise (fun a b : ProcessedEmployerData => b.employees ≤ a.employees)
        (fetchSubIndustries cenv nenv cache state county parentNaicsCode
          originalZip).1) := by
  constructor
  · simpa only [fetchEmploymentByCounty] using
      postprocess_ok (naicsCodes.flatMap
        (fun naics => fetchCountySectorData cenv state county naics originalZip))
  · by_cases h : (getChildCodes nenv cache parentNaicsCode).1.isEmpty = true
    · constructor
      · intro x hx
        simp [fetchSubIndustries, h] at hx
      · simp [fetchSubIndustries, h]
    · have := postprocess_ok
        ((getChildCodes nenv cache parentNaicsCode).1.flatMap
          (fun cc =>
            (fetchCountySectorData cenv state county cc.code originalZip).map
              (fun item => { item with level := some (strLen cc.code) })))
      simpa only [fetchSubIndustries, if_neg h] using this

/-! ### C7: drill-down strictly increases specificity -/

/-- Fields of a row produced by `rowToProcessed`: the NAICS code is the
queried code and the level is its length. -/
theorem rowToProcessed_fields (naics : String) (row : List String)
    (x : ProcessedEmployerData) (h : rowToProcessed naics row = some x) :
    x.naicsCode = naics ∧ x.level = some (strLen naics) := by
  simp only [rowToProcessed] at h
  split at h
  · injection h with h'
    subst h'
    exact ⟨rfl, rfl⟩
  · cases h

/-- Every item of `fetchCountySectorData` carries the queried NAICS code and
its length as `level`. -/
theorem fetchCountySectorData_fields (env : CensusEnv)
    (state county naics originalZip : String) :
    ∀ x ∈ fetchCountySectorData env state county naics originalZip,
      x.naicsCode = naics ∧ x.level = some (strLen naics) := by
  intro x hx
  simp only [fetchCountySectorData] at hx
  cases henv : env (CensusReq.sector state county naics) with
  | throw => rw [henv] at hx; cases hx
  | notOk st => rw [henv] at hx; cases hx
  | ok body =>
    rw [henv] at hx
    cases body with
    | blank => cases hx
    | badJson => cases hx
    | json v =>
      cases v with
      | notArr => cases hx
      | arr rows =>
        dsimp only at hx
        by_cases hr : rows.length < 2
        · rw [if_pos hr] at hx; cases hx
        · rw [if_neg hr] at hx
          obtain ⟨row, _, hrow⟩ := List.mem_filterMap.mp hx
          exact rowToProcessed_fields naics row x hrow

/-- C7: every item returned by `fetchSubIndustries` has a `naicsCode` drawn
from `getChildCodes parentNaicsCode` — hence one digit longer than the
parent code — and its `level` equals `parentNaicsCode.length + 1`. -/
theorem C7_drilldown_specificity (cenv : CensusEnv) (nenv : NaicsEnv)
    (cache : Cache) (state county parentNaicsCode originalZip : String)
    (hwf : cacheWF cache) :
    ∀ item ∈ (fetchSubIndustries cenv nenv cache state county parentNaicsCode
        originalZip).1,
      (∃ cc ∈ (getChildCodes nenv cache parentNaicsCode).1,
         item.naicsCode = cc.code) ∧
      strLen item.naicsCode = strLen parentNaicsCode + 1 ∧
      item.level = some (strLen parentNaicsCode + 1) := by
  intro item hitem
  by_cases h : (getChildCodes nenv cache parentNaicsCode).1.isEmpty = true
  · simp [fetchSubIndustries, h] at hitem
  · rw [fetchSubIndustries] at hitem
    simp only [if_neg h] at hitem
    have h1 := List.mem_mergeSort.mp hitem
    have h2 := (List.mem_filter.mp h1).1
    obtain ⟨cc, hcc, hmem⟩ := List.mem_flatMap.mp h2
    obtain ⟨it0, hit0, heq⟩ := List.mem_map.mp hmem
    have hfields := fetchCountySectorData_fields cenv state county cc.code
      originalZip it0 hit0
    have hgood := (getChildCodes_ok nenv cache parentNaicsCode hwf).1 cc hcc
    simp only [goodChildB, allDigits, Bool.and_eq_true, decide_eq_true_eq] at hgood
    have hlen : strLen cc.code = strLen parentNaicsCode + 1 := hgood.1.1
    subst heq
    refine ⟨⟨cc, hcc, ?_⟩, ?_, ?_⟩
    · simpa using hfields.1
    · simpa [hfields.1] using hlen
    · simpa using congrArg (fun n => some n) hlen

/-- The child-code lookup of the witness environments resolves the single
child `621`. -/
theorem getChildCodes_witness_eq : (getChildCodes naicsChildEnv [] "62").1
    = [{ code := "621", title := "Ambulatory Health Care Services" }] := by
  have hloop : (searchChildLoop naicsChildEnv "62"
      ["62", "62" ++ "*", "62" ++ "0", "62" ++ "1", strTake "62" 2] []).1
      = [("621", "Ambulatory Health Care Services")] := rfl
  simp only [getChildCodes, cacheGet, List.find?, Option.map_none, searchChildCodes,
    hloop, List.isEmpty_cons, List.mergeSort_singleton, List.map_cons, List.map_nil]
  simp

/-- `witnessItem` is the item the drill-down from `62` returns under the
witness environments. -/
theorem witnessItem_mem : witnessItem ∈ (fetchSubIndustries censusSectorEnv
    naicsChildEnv [] "25" "017" "62" "02459").1 := by
  have hsector : fetchCountySectorData censusSectorEnv "25" "017" "621" "02459"
      = [witnessItem] := rfl
  simp only [fetchSubIndustries, getChildCodes_witness_eq, List.isEmpty_cons,
    List.flatMap_cons, List.flatMap_nil, hsector, List.map_cons, List.map_nil]
  simp only [List.append_nil, List.filter_cons]
  simp [List.mergeSort_singleton, witnessItem]
  exact ⟨by decide, by decide⟩

/-- Witness for C7 at the concrete sub-industry item `witnessItem`: the
drill-down from sector `62` into Middlesex County with one child code
(`621`) carrying data, against the empty cache. -/
theorem C7_drilldown_specificity_witness :
    (∃ cc ∈ (getChildCodes naicsChildEnv [] "62").1,
       witnessItem.naicsCode = cc.code) ∧
    strLen witnessItem.naicsCode = strLen "62" + 1 ∧
    witnessItem.level = some (strLen "62" + 1) :=
  C7_drilldown_specificity censusSectorEnv naicsChildEnv [] "25" "017" "62"
    "02459" cacheWF_nil witnessItem witnessItem_mem

/-! ### C4: the NAICS code list always resolves to something non-empty -/

/-- C4: `fetchNAICSCodes` tries the chart method, then — when that is empty —
the sweep method, then the non-empty static fallback; it never throws (each
method catches its own failures) and hence always returns a non-empty list,
provided any cached `all-<year>` entry is itself non-empty (which is the only
kind of value `fetchNAICSCodes` ever caches). -/
theorem C4_fetchNAICSCodes_nonempty (env : NaicsEnv) (cache : Cache)
    (year : String)
    (hwf : ∀ v, cacheGet cache ("all-" ++ year) = some v → v ≠ []) :
    (cacheGet cache ("all-" ++ year) = none →
       (fetchNAICSCodes env cache year).1 =
         (if (tryChartMethod env year).isEmpty then
            (if (sweepSearchMethod env year).isEmpty then getFallbackNAICSCodes
             else sweepSearchMethod env year)
          else tryChartMethod env year)) ∧
    getFallbackNAICSCodes ≠ [] ∧
    (fetchNAICSCodes env cache year).1 ≠ [] := by
  have hfb : getFallbackNAICSCodes ≠ [] := by simp [getFallbackNAICSCodes]
  refine ⟨?_, hfb, ?_⟩
  · intro h
    simp only [fetchNAICSCodes, h]
    by_cases hc : (tryChartMethod env year).isEmpty = true <;>
      by_cases hs : (sweepSearchMethod env year).isEmpty = true <;>
      simp [hc, hs]
  · cases h : cacheGet cache ("all-" ++ year) with
    | some v =>
      have hv := hwf v h
      simpa [fetchNAICSCodes, h] using hv
    | none =>
      simp only [fetchNAICSCodes, h]
      by_cases hc : (tryChartMethod env year).isEmpty = true
      · by_cases hs : (sweepSearchMethod env year).isEmpty = true
        · simpa [hc, hs] using hfb
        · simpa [hc, hs] using (by simpa using hs : sweepSearchMethod env year ≠ [])
      · simpa [hc] using (by simpa using hc : tryChartMethod env year ≠ [])

/-- Witness for C4: the empty cache and an environment in which every NAICS
request fails, forcing the static fallback. -/
theorem C4_fetchNAICSCodes_nonempty_witness :
    (cacheGet [] ("all-" ++ "2022") = none →
       (fetchNAICSCodes naicsFailEnv [] "2022").1 =
         (if (tryChartMethod naicsFailEnv "2022").isEmpty then
            (if (sweepSearchMethod naicsFailEnv "2022").isEmpty then
               getFallbackNAICSCodes
             else sweepSearchMethod naicsFailEnv "2022")
          else tryChartMethod naicsFailEnv "2022")) ∧
    getFallbackNAICSCodes ≠ [] ∧
    (fetchNAICSCodes naicsFailEnv [] "2022").1 ≠ [] :=
  C4_fetchNAICSCodes_nonempty naicsFailEnv [] "2022"
    (fun v h => absurd h (by simp [cacheGet]))
